import Mathlib

/-!
# Verification of the twitch-recorder supervision core

A shallow embedding of `src/app.py` (the only source file of the
repository alessandromasone/twitch-recorder), covering:

* the availability probe `is_channel_online` (lines 52-61);
* the `Recorder` class: `start` (80-89), the supervision cycle
  `_recording_manager` (91-142), `stop` (160-171);
* the reconciliation loop `monitor_channels`, per-channel decision body
  (lines 200-216);
* the channel-registry mutations of the `index` route, in particular
  `remove` (275-281);
* `load_channels` (40-45) and `delete_recording` (300-319).

Time is modelled in seconds as `Nat` (the code uses `time.time()`
differences, always non-negative).  External processes are modelled by
generation numbers; the OS signals the code sends (`terminate`, `kill`)
are recorded explicitly as outputs so that theorems can speak about
which signals a function does or does not issue.  Paths are modelled as
lists of components; POSIX resolution of `.` and `..` is explicit.
-/

namespace TwitchRecorder

/-! ## Configuration constants (src/app.py lines 15-22, and the literals
inside `_recording_manager`, lines 124-139) -/

/-- Minimum process lifetime (seconds) below which an exit counts as a
failure occurrence (`if duration < 20`, line 124). -/
def minLifetime : Nat := 20

/-- Error-tolerance window in seconds
(`if time.time() - error_start_time > 180`, line 129). -/
def errorTolerance : Nat := 180

/-- Default value of `RECORDINGS_DIR` (line 16). -/
def RECORDINGS_DIR : String := "recordings"

/-! ## Data model

`ChannelRec` is one element of the global `channels` list: a JSON object
with fields `name`, `is_recording` (operator intent, the spec's
`desired_active`) and `online` (the spec's `last_known_availability`);
see lines 247 and 174. -/

structure ChannelRec where
  name : String
  is_recording : Bool
  online : Bool
deriving DecidableEq

/-- The mutable state of one `Recorder` instance (lines 70-78).
`process` holds the generation number of the currently spawned
streamlink process, or `none` once its exit has been observed and the
handle cleared (line 117); `output_path` is the current artifact path. -/
structure RecorderState where
  channel_name : String
  process : Option Nat
  output_path : Option String
  is_recording : Bool
  stop_requested : Bool
deriving DecidableEq

/-- OS-level signals the code can send to a capture process. -/
inductive ProcSignal
  | terminate
  | kill
deriving DecidableEq

/-! ## Availability probe (`is_channel_online`, lines 52-61) -/

/-- Outcome of running `subprocess.run(["streamlink", url, "--json"],
timeout=10)`: either the subprocess completed with a return code and
captured stdout, or some exception was raised (timeout expired, spawn
failure, any other error). -/
inductive ProbeOutcome
  | completed (returncode : Int) (stdout : String)
  | exception
deriving DecidableEq

/-- Whether `l` begins with `pat`. -/
def startsWithL : List Char → List Char → Bool
  | [], _ => true
  | _ :: _, [] => false
  | a :: pat, b :: l => a == b && startsWithL pat l

/-- Whether `pat` occurs as a contiguous sublist of `l`
(the semantics of Python's `pat in bytes`). -/
def containsSub (pat : List Char) : List Char → Bool
  | [] => startsWithL pat []
  | b :: l => startsWithL pat (b :: l) || containsSub pat l

/-- Model of `is_channel_online` (lines 52-61): `True` iff the subprocess
completed with return code `0` and the byte string `b"streams"` occurs
in its stdout; every exception is caught and yields `False`. -/
def is_channel_online (o : ProbeOutcome) : Bool :=
  match o with
  | ProbeOutcome.completed rc out =>
      rc == 0 && containsSub "streams".toList out.toList
  | ProbeOutcome.exception => false

/-! ## Restart policy (`_recording_manager`, lines 122-139)

After each observed process exit (with `stop_requested` false), the
manager computes `duration` and decides: short lifetime opens/uses the
failure window (`error_start_time`) and either fails out of the loop or
restarts after 5s; long lifetime resets the window and restarts after
1s.  `restartStep` is that decision, taking the current failure-window
start, the current clock value `now` (the value of `time.time()` right
after the exit) and the process lifetime `duration`. -/

inductive RestartDecision
  | failed
  | restartAfterErrorDelay
  | restartAfterSplitDelay
deriving DecidableEq

/-- Lines 122-139: the post-exit restart/tolerance logic.  Returns the
new `error_start_time` and the decision taken. -/
def restartStep (errorStart : Option Nat) (now duration : Nat) :
    Option Nat × RestartDecision :=
  if duration < minLifetime then
    let est := errorStart.getD now
    if now - est > errorTolerance then (some est, RestartDecision.failed)
    else (some est, RestartDecision.restartAfterErrorDelay)
  else (none, RestartDecision.restartAfterSplitDelay)

/-- Folding `restartStep` over a sequence of observed process exits,
each given as `(now, duration)` where `now` is the clock value when the
exit is processed.  Returns the final `error_start_time` and whether the
manager broke out of the loop via the tolerance check (line 131), i.e.
reached the failed condition; once failed, no further events are
processed (the loop has exited). -/
def runRestartPolicy (errorStart : Option Nat) :
    List (Nat × Nat) → Option Nat × Bool
  | [] => (errorStart, false)
  | (now, d) :: rest =>
    match restartStep errorStart now d with
    | (es, RestartDecision.failed) => (es, true)
    | (es, _) => runRestartPolicy es rest

/-! ## Recorder.start / Recorder.stop (lines 80-89 and 160-171) -/

/-- Model of `Recorder.start` (lines 80-89): under the instance lock, a no-op if
already recording; otherwise clears `stop_requested`, sets
`is_recording` and launches the manager thread.  The returned `Bool`
is `true` iff a new manager thread (supervision cycle) was launched. -/
def recorderStart (r : RecorderState) : RecorderState × Bool :=
  if r.is_recording then (r, false)
  else ({ r with stop_requested := false, is_recording := true }, true)

/-- Model of `Recorder.stop` (lines 160-171): under the instance lock, a no-op if
not recording; otherwise sets `stop_requested` and, if a process handle
is present, sends it `terminate` (line 168).  The signal list records
every OS signal the call issues.  The function returns immediately: it
neither waits for the process to exit nor clears the handle. -/
def recorderStop (r : RecorderState) : RecorderState × List ProcSignal :=
  if !r.is_recording then (r, [])
  else
    ({ r with stop_requested := true },
      match r.process with
      | some _ => [ProcSignal.terminate]
      | none => [])

/-- The end of `_recording_manager` (lines 141-142): when the loop
exits — because `stop_requested` was observed or the error tolerance
was exceeded — the manager sets `is_recording := False` under the lock.
The handle was already cleared in the `finally` block (line 117). -/
def managerFinish (r : RecorderState) : RecorderState :=
  { r with is_recording := false, process := none }

/-! ## Supervision-cycle trace (`_recording_manager`, lines 91-120)

One loop iteration spawns exactly one streamlink process
(`subprocess.Popen`, line 104), then blocks on `self.process.wait()`
(line 110) before the `finally` block clears the handle and before any
further iteration can run.  `managerTrace` produces the sequence of
spawn / exit-observed events for a run of the loop, driven by a script:
one `IterationOutcome` per iteration (the environment's choice of the
process's start time and lifetime, and whether `stop_requested` was set
by the time of the line-119 check). -/

inductive ManagerEvent
  | spawn (gen : Nat)
  | exitObserved (gen : Nat)
deriving DecidableEq

structure IterationOutcome where
  startTime : Nat
  duration : Nat
  stopRequestedAfter : Bool
deriving DecidableEq

/-- The event trace of `_recording_manager` started at generation `gen`
with failure-window state `errorStart`, running as many iterations as
the script drives (the loop also ends when the script is exhausted,
standing for `stop_requested` being observed at the line-95 check). -/
def managerTrace (gen : Nat) (errorStart : Option Nat) :
    List IterationOutcome → List ManagerEvent
  | [] => []
  | it :: rest =>
    let evs := [ManagerEvent.spawn gen, ManagerEvent.exitObserved gen]
    if it.stopRequestedAfter then evs
    else
      match restartStep errorStart (it.startTime + it.duration) it.duration with
      | (_, RestartDecision.failed) => evs
      | (es, _) => evs ++ managerTrace (gen + 1) es rest

/-- Number of processes alive after applying one event. -/
def applyEvent (live : Nat) : ManagerEvent → Nat
  | ManagerEvent.spawn _ => live + 1
  | ManagerEvent.exitObserved _ => live - 1

/-- The maximum number of simultaneously live processes over a trace,
starting from `live` already alive. -/
def maxLive (live : Nat) : List ManagerEvent → Nat
  | [] => live
  | e :: rest => max live (maxLive (applyEvent live e) rest)

/-! ## Reconciliation loop body (`monitor_channels`, lines 200-216)

Inside `with data_lock`, for each channel: `ch['online']` is set from
`online_status.get(name, False)`, then the two-branch start/stop logic
runs against the paired recorder's `is_recording` flag.  The two inner
`if` statements of the `desired` branch are sequential (not `elif`), so
we model them sequentially, threading the recorder's running flag. -/

inductive RecAction
  | start
  | stop
deriving DecidableEq

/-- The per-channel body of the reconciliation cycle (lines 202-215).
`probe` is the `online_status` dict as an association list; `running` is
the paired recorder's `is_recording` flag.  Returns the updated channel
record and the list of recorder calls made, in order. -/
def channelStep (probe : List (String × Bool)) (ch : ChannelRec)
    (running : Bool) : ChannelRec × List RecAction :=
  let online := (probe.lookup ch.name).getD false
  let ch1 := { ch with online := online }
  if ch.is_recording then
    let acts1 := if online && !running then [RecAction.start] else []
    let running1 := if online && !running then true else running
    let acts2 := if !online && running1 then [RecAction.stop] else []
    (ch1, acts1 ++ acts2)
  else
    (ch1, if running then [RecAction.stop] else [])

/-! ## Registry mutations (`index` route) -/

/-- The application's global mutable state: the `channels` list and the
`recorders` dict (lines 174-175), the latter as an association list. -/
structure AppState where
  channels : List ChannelRec
  recorders : List (String × RecorderState)
deriving DecidableEq

/-- The `remove` action of the `index` route (lines 275-281): guarded by
`channel_name in recorders`; under `data_lock` it calls
`recorders[channel_name].stop()`, then deletes the recorder from the
dict and filters the channel out of the list — all in the same critical
section, with no wait in between.  Returns the new state, the signals
issued by `stop()`, and the state the discarded recorder had at the
moment it was deleted (`none` when the guard failed and nothing was
removed). -/
def removeChannel (s : AppState) (name : String) :
    AppState × List ProcSignal × Option RecorderState :=
  match s.recorders.lookup name with
  | none => (s, [], none)
  | some r =>
    let p := recorderStop r
    ({ channels := s.channels.filter (fun c => c.name ≠ name),
       recorders := s.recorders.filter (fun q => q.1 ≠ name) },
      p.2, some p.1)

/-! ## load_channels (lines 40-45) -/

/-- Model of `load_channels`: if the channels file exists, return the result of
`json.load` (which may itself raise, modelled by `Except`); otherwise
return the empty list without touching the file. -/
def load_channels (fileExists : Bool)
    (parsed : Except String (List ChannelRec)) :
    Except String (List ChannelRec) :=
  if fileExists then parsed else Except.ok []

/-! ## delete_recording (lines 300-319)

Paths are lists of components; `resolveFrom cwd comps` performs POSIX
resolution of the components against a current directory, treating
`""` and `"."` as no-ops and `".."` as dropping the last component.
The filesystem is a partial map from resolved paths to entries;
`os.path.exists` succeeds on files and directories alike, while
`os.remove` raises on a directory (the exception is caught at line
313), so an entry is removed iff the resolved target is a file. -/

inductive FsEntry
  | file
  | dir
deriving DecidableEq

/-- Model of `os.path.basename` for POSIX paths: the suffix of the string after
the last `'/'` (line 306). -/
def basename (s : String) : String :=
  String.mk ((s.toList.reverse.takeWhile (fun c => c != '/')).reverse)

/-- One step of POSIX path resolution. -/
def resolveStep (stack : List String) (comp : String) : List String :=
  if comp = "" || comp = "." then stack
  else if comp = ".." then stack.dropLast
  else stack ++ [comp]

def resolveFrom (cwd : List String) (comps : List String) : List String :=
  comps.foldl resolveStep cwd

/-- Model of `delete_recording` (lines 300-319) for a non-empty submitted
`filename`: take `os.path.basename`, join it under `RECORDINGS_DIR`
(since the basename contains no `'/'`, `os.path.join` is exactly the
two-component relative path), and remove the target iff it exists and
is a regular file.  Returns the resolved path of the removed entry, or
`none` when nothing was removed. -/
def delete_recording (fs : List String → Option FsEntry)
    (cwd : List String) (filename : String) : Option (List String) :=
  match fs (resolveFrom cwd [RECORDINGS_DIR, basename filename]) with
  | some FsEntry.file => some (resolveFrom cwd [RECORDINGS_DIR, basename filename])
  | _ => none

/-- A small concrete filesystem: the working directory, the recordings
directory inside it, and one recording file `a.ts`. -/
def recordingsFsExample : List String → Option FsEntry := fun p =>
  if p = [] then some FsEntry.dir
  else if p = [RECORDINGS_DIR] then some FsEntry.dir
  else if p = [RECORDINGS_DIR, "a.ts"] then some FsEntry.file
  else none

/-! ## Helper lemmas -/

theorem basename_no_slash (s : String) : '/' ∉ (basename s).toList := by
  intro h
  have h2 : '/' ∈ s.toList.reverse.takeWhile (fun c => c != '/') := by
    have he : (basename s).toList =
        (s.toList.reverse.takeWhile (fun c => c != '/')).reverse := rfl
    rw [he, List.mem_reverse] at h
    exact h
  have h3 := List.mem_takeWhile_imp h2
  simp at h3

theorem runRestartPolicy_window (t0 : Nat) (rest : List (Nat × Nat))
    (hshort : ∀ p ∈ rest, p.2 < minLifetime) :
    ((runRestartPolicy (some t0) rest).2 = true ↔
      ∃ p ∈ rest, errorTolerance < p.1 - t0) ∧
    ((runRestartPolicy (some t0) rest).2 = false →
      (runRestartPolicy (some t0) rest).1 = some t0) := by
  induction rest with
  | nil => simp [runRestartPolicy]
  | cons hd tl ih =>
    obtain ⟨now, d⟩ := hd
    have hd1 : d < minLifetime := hshort (now, d) (List.mem_cons_self _ _)
    have htl : ∀ p ∈ tl, p.2 < minLifetime :=
      fun p hp => hshort p (List.mem_cons_of_mem _ hp)
    have ih2 := ih htl
    by_cases hw : errorTolerance < now - t0
    · constructor
      · simp [runRestartPolicy, restartStep, hd1, hw]
      · simp [runRestartPolicy, restartStep, hd1, hw]
    · constructor
      · rw [show (runRestartPolicy (some t0) ((now, d) :: tl)) =
            runRestartPolicy (some t0) tl by
          simp [runRestartPolicy, restartStep, hd1, hw]]
        rw [ih2.1]
        constructor
        · intro ⟨p, hp, hpw⟩
          exact ⟨p, List.mem_cons_of_mem _ hp, hpw⟩
        · intro ⟨p, hp, hpw⟩
          rcases List.mem_cons.mp hp with heq | hmem
          · subst heq; exact absurd hpw hw
          · exact ⟨p, hmem, hpw⟩
      · rw [show (runRestartPolicy (some t0) ((now, d) :: tl)) =
            runRestartPolicy (some t0) tl by
          simp [runRestartPolicy, restartStep, hd1, hw]]
        exact ih2.2

theorem maxLive_managerTrace :
    ∀ (script : List IterationOutcome) (gen : Nat) (es : Option Nat),
      maxLive 0 (managerTrace gen es script) ≤ 1
  | [], _, _ => by simp [managerTrace, maxLive]
  | it :: rest, gen, es => by
    by_cases hstop : it.stopRequestedAfter
    · simp [managerTrace, hstop, maxLive, applyEvent]
    · rcases hdec : restartStep es (it.startTime + it.duration) it.duration with ⟨es2, dec⟩
      have ih := maxLive_managerTrace rest (gen + 1) es2
      cases dec <;>
        simp [managerTrace, hstop, hdec, maxLive, applyEvent] <;>
        omega

theorem lookup_filter_ne (name : String) :
    ∀ l : List (String × RecorderState),
      (l.filter (fun q => q.1 ≠ name)).lookup name = none
  | [] => rfl
  | (k, v) :: t => by
    by_cases hk : k = name
    · simpa [List.filter, hk] using lookup_filter_ne name t
    · have hk2 : (name == k) = false := by
        simp only [beq_eq_false_iff_ne]
        exact fun h => hk h.symm
      simpa [List.filter, hk, List.lookup, hk2] using lookup_filter_ne name t

/-! ## Claim theorems -/

/-- C1 (counterexample): the exceeded-tolerance condition is not terminal.
Concretely: the tolerance check fails the manager at clock 200 with the
failure window opened at 0 (duration 5 < 20, elapsed 200 > 180); the
manager then finishes, clearing `is_recording`; yet with the channel
still marked active and probing online, the very next reconciliation
cycle's decision for it is `start`, and `recorderStart` launches a new
supervision cycle — no operator resume intervened. -/
theorem C1_counterexample :
    (restartStep (some 0) 200 5).2 = RestartDecision.failed ∧
    (channelStep [("chan", true)] ⟨"chan", true, false⟩
        (managerFinish ⟨"chan", none, some "recordings/c.ts", true, false⟩).is_recording).2
      = [RecAction.start] ∧
    (recorderStart (managerFinish ⟨"chan", none, some "recordings/c.ts", true, false⟩)).2
      = true := by
  decide

/-- C1 (amended): when the restart tolerance is exceeded the manager
exits its loop and clears `is_recording`, but the state is not terminal:
for any channel record still marked active whose probe reports online,
the next reconciliation cycle calls `start()` on the recorder, and
`start()` launches a fresh supervision cycle.  No operator `resume` is
required. -/
theorem C1_not_terminal (t now d : Nat) (r : RecorderState) (ch : ChannelRec)
    (probe : List (String × Bool))
    (hshort : d < minLifetime) (helapsed : errorTolerance < now - t)
    (hdes : ch.is_recording = true)
    (hon : (probe.lookup ch.name).getD false = true) :
    (restartStep (some t) now d).2 = RestartDecision.failed ∧
    (managerFinish r).is_recording = false ∧
    (channelStep probe ch (managerFinish r).is_recording).2 = [RecAction.start] ∧
    (recorderStart (managerFinish r)).2 = true := by
  refine ⟨?_, rfl, ?_, ?_⟩
  · simp [restartStep, hshort, helapsed]
  · simp [channelStep, hdes, hon, managerFinish]
  · simp [recorderStart, managerFinish]

/-- C1 witness. -/
theorem C1_witness :
    (restartStep (some 0) 200 5).2 = RestartDecision.failed ∧
    (managerFinish ⟨"chan", none, none, true, false⟩).is_recording = false ∧
    (channelStep [("chan", true)] ⟨"chan", true, false⟩
        (managerFinish ⟨"chan", none, none, true, false⟩).is_recording).2
      = [RecAction.start] ∧
    (recorderStart (managerFinish ⟨"chan", none, none, true, false⟩)).2 = true :=
  C1_not_terminal 0 200 5 ⟨"chan", none, none, true, false⟩ ⟨"chan", true, false⟩
    [("chan", true)] (by decide) (by decide) rfl (by decide)

/-- C2: the restart-tolerance law.  For a first short exit processed at
clock `t0` followed by further exits all with lifetime below the
threshold: (1) the manager reaches the failed condition iff some later
exit is processed strictly more than the tolerance after `t0` — the
window opened at the first short exit and the condition does not count
the exits; (2) if the tolerance was not exceeded, the failure window is
still the one opened at `t0`; (3) any exit with lifetime at or above
the threshold resets the failure window to closed before the delayed
restart (its decision is the split-restart). -/
theorem C2_restart_tolerance (t0 d0 : Nat) (rest : List (Nat × Nat))
    (h0 : d0 < minLifetime)
    (hshort : ∀ p ∈ rest, p.2 < minLifetime) :
    ((runRestartPolicy none ((t0, d0) :: rest)).2 = true ↔
      ∃ p ∈ rest, errorTolerance < p.1 - t0) ∧
    ((runRestartPolicy none ((t0, d0) :: rest)).2 = false →
      (runRestartPolicy none ((t0, d0) :: rest)).1 = some t0) ∧
    (∀ es now d, minLifetime ≤ d →
      restartStep es now d = (none, RestartDecision.restartAfterSplitDelay)) := by
  have hfirst : runRestartPolicy none ((t0, d0) :: rest) =
      runRestartPolicy (some t0) rest := by
    simp [runRestartPolicy, restartStep, h0]
  have hwin := runRestartPolicy_window t0 rest hshort
  refine ⟨?_, ?_, ?_⟩
  · rw [hfirst]; exact hwin.1
  · rw [hfirst]; exact hwin.2
  · intro es now d hlong
    simp [restartStep, Nat.not_lt.mpr hlong]

/-- C2 witness: three consecutive short exits at clocks 100, 150, 281
(the third 181s after the first) drive the policy to the failed
condition. -/
theorem C2_witness :
    (runRestartPolicy none ((100, 5) :: [(150, 3), (281, 2)])).2 = true :=
  (C2_restart_tolerance 100 5 [(150, 3), (281, 2)] (by decide)
    (by decide)).1.mpr ⟨(281, 2), by decide, by decide⟩

/-- C3 (counterexample): `remove` discards the pair while the process
handle is still present.  Concretely: a registered channel whose
recorder has a live process (handle `some 0`); after `removeChannel`
the recorder is gone from the dict and the channel from the list, yet
the discarded recorder's state at the moment of discard still holds the
process handle — its exit was never observed (that only happens in the
manager's `finally`, which `remove` does not wait for). -/
theorem C3_counterexample :
    ((removeChannel
        ⟨[⟨"chan", true, true⟩],
         [("chan", ⟨"chan", some 0, some "recordings/c.ts", true, false⟩)]⟩
        "chan").1.recorders.lookup "chan" = none) ∧
    ((removeChannel
        ⟨[⟨"chan", true, true⟩],
         [("chan", ⟨"chan", some 0, some "recordings/c.ts", true, false⟩)]⟩
        "chan").2.2 = some ⟨"chan", some 0, some "recordings/c.ts", true, true⟩) ∧
    (some 0 : Option Nat) ≠ none := by
  refine ⟨rfl, rfl, by decide⟩

/-- C3 (amended): `remove(name)` calls the paired recorder's `stop()` —
which sets `stop_requested` and sends `terminate` when a live process
handle exists — and then immediately, in the same critical section,
deletes the pair from the dict and the channel list without waiting for
the process exit to be observed: the recorder is discarded with its
process handle unchanged, so possibly while the process is still
alive. -/
theorem C3_remove_immediate (s : AppState) (name : String) (r : RecorderState)
    (hr : s.recorders.lookup name = some r) :
    ((removeChannel s name).1.recorders.lookup name = none) ∧
    (∀ c ∈ (removeChannel s name).1.channels, c.name ≠ name) ∧
    ((removeChannel s name).2.2 = some (recorderStop r).1) ∧
    ((recorderStop r).1.process = r.process) ∧
    (r.is_recording = true → ∀ g, r.process = some g →
      (removeChannel s name).2.1 = [ProcSignal.terminate]) := by
  refine ⟨?_, ?_, ?_, ?_, ?_⟩
  · simp only [removeChannel, hr]
    exact lookup_filter_ne name s.recorders
  · intro c hc
    simp only [removeChannel, hr] at hc
    simpa using (List.mem_filter.mp hc).2
  · simp [removeChannel, hr]
  · simp only [recorderStop]
    split
    · rfl
    · rfl
  · intro hrec g hg
    simp [removeChannel, hr, recorderStop, hrec, hg]

/-- C3 witness. -/
theorem C3_witness :
    ((removeChannel
        ⟨[⟨"chan", true, true⟩],
         [("chan", ⟨"chan", some 0, none, true, false⟩)]⟩
        "chan").1.recorders.lookup "chan" = none) ∧
    ((removeChannel
        ⟨[⟨"chan", true, true⟩],
         [("chan", ⟨"chan", some 0, none, true, false⟩)]⟩
        "chan").2.2 = some (recorderStop ⟨"chan", some 0, none, true, false⟩).1) ∧
    ((recorderStop ⟨"chan", some 0, none, true, false⟩).1.process = some 0) :=
  have h := C3_remove_immediate
    ⟨[⟨"chan", true, true⟩], [("chan", ⟨"chan", some 0, none, true, false⟩)]⟩
    "chan" ⟨"chan", some 0, none, true, false⟩ rfl
  ⟨h.1, h.2.2.1, h.2.2.2.1⟩

/-- C4 (counterexample): `stop()` never escalates to a forceful kill.
On a recorder with a live process, the complete list of signals issued
by `stop()` is `[terminate]`; `kill` is not among them — there is no
grace period or bounded-termination escalation in the code. -/
theorem C4_counterexample :
    ((recorderStop ⟨"chan", some 0, some "recordings/c.ts", true, false⟩).2
      = [ProcSignal.terminate]) ∧
    ProcSignal.kill ∉
      (recorderStop ⟨"chan", some 0, some "recordings/c.ts", true, false⟩).2 := by
  decide

/-- C4 (amended): for every recorder that is recording, `stop()` sets
the stop-requested flag and, when a process handle is present, issues a
graceful `terminate`; when none is present it issues nothing; and it
never issues a forceful `kill` — `stop()` returns immediately and
implements no grace period, so bounded termination is not enforced by
`stop()` itself. -/
theorem C4_stop_signals (r : RecorderState) (h : r.is_recording = true) :
    ((recorderStop r).1.stop_requested = true) ∧
    (∀ g, r.process = some g → (recorderStop r).2 = [ProcSignal.terminate]) ∧
    (r.process = none → (recorderStop r).2 = []) ∧
    ProcSignal.kill ∉ (recorderStop r).2 := by
  refine ⟨?_, ?_, ?_, ?_⟩
  · simp [recorderStop, h]
  · intro g hg; simp [recorderStop, h, hg]
  · intro hg; simp [recorderStop, h, hg]
  · cases hp : r.process <;> simp [recorderStop, h, hp]

/-- C4 witness. -/
theorem C4_witness :
    ((recorderStop ⟨"chan", some 7, none, true, false⟩).1.stop_requested = true) ∧
    ((recorderStop ⟨"chan", some 7, none, true, false⟩).2 = [ProcSignal.terminate]) ∧
    ProcSignal.kill ∉ (recorderStop ⟨"chan", some 7, none, true, false⟩).2 :=
  have h := C4_stop_signals ⟨"chan", some 7, none, true, false⟩ rfl
  ⟨h.1, h.2.1 7 rfl, h.2.2.2⟩

/-- C5: in each reconciliation cycle the per-channel body first updates
the channel's `online` field from the probe result (defaulting to false
when the probe map has no entry for it) and then performs exactly the
decision rule: `start` iff desired ∧ available ∧ ¬running, `stop` iff
(¬desired ∨ ¬available) ∧ running, and no recorder call otherwise. -/
theorem C5_reconciliation_rule (probe : List (String × Bool)) (ch : ChannelRec)
    (running : Bool) :
    ((channelStep probe ch running).1 =
      { ch with online := (probe.lookup ch.name).getD false }) ∧
    ((channelStep probe ch running).2 =
      if ch.is_recording && (probe.lookup ch.name).getD false && !running then
        [RecAction.start]
      else if (!ch.is_recording || !(probe.lookup ch.name).getD false) && running then
        [RecAction.stop]
      else []) := by
  cases h : (probe.lookup ch.name).getD false <;>
    cases hd : ch.is_recording <;>
    cases running <;>
    simp [channelStep, h, hd]

/-- C6: the probe returns `true` iff the external tool's invocation
completed with exit status zero and the marker `"streams"` occurs in
its captured output; on an exception (timeout, spawn failure, anything
else) it returns `false` — the function is total, so no error reaches
the caller. -/
theorem C6_probe_contract :
    (∀ (rc : Int) (out : String),
      is_channel_online (ProbeOutcome.completed rc out) = true ↔
        rc = 0 ∧ containsSub "streams".toList out.toList = true) ∧
    is_channel_online ProbeOutcome.exception = false := by
  constructor
  · intro rc out
    simp [is_channel_online]
  · rfl

/-- C7: at most one live capture process per supervisor.  Every trace
the supervision cycle can produce — for any script of iteration
outcomes, any starting generation, any failure-window state — keeps
the number of simultaneously live processes at or below one (each
iteration spawns, then observes the exit before any further spawn);
and `start()` launches a supervision cycle iff one is not already
active, so a second concurrent cycle is never created. -/
theorem C7_single_process :
    (∀ (script : List IterationOutcome) (gen : Nat) (es : Option Nat),
      maxLive 0 (managerTrace gen es script) ≤ 1) ∧
    (∀ r : RecorderState, (recorderStart r).2 = !r.is_recording) := by
  constructor
  · exact maxLive_managerTrace
  · intro r
    cases h : r.is_recording <;> simp [recorderStart, h]

/-- C8: `start()` is idempotent: on a recorder already recording it
returns the state unchanged and launches nothing; equivalently, the
second of two consecutive `start()` calls is always a no-op that
launches no second supervision cycle. -/
theorem C8_start_idempotent (r : RecorderState) (h : r.is_recording = true) :
    recorderStart r = (r, false) ∧
    recorderStart ((recorderStart r).1) = ((recorderStart r).1, false) := by
  constructor
  · simp [recorderStart, h]
  · cases hr : r.is_recording <;> simp [recorderStart, hr]

/-- C8 witness. -/
theorem C8_witness :
    recorderStart ⟨"chan", some 0, none, true, false⟩ =
      (⟨"chan", some 0, none, true, false⟩, false) :=
  (C8_start_idempotent ⟨"chan", some 0, none, true, false⟩ rfl).1

theorem resolveStep_normal (stack : List String) (comp : String)
    (h0 : comp ≠ "") (h1 : comp ≠ ".") (h2 : comp ≠ "..") :
    resolveStep stack comp = stack ++ [comp] := by
  simp [resolveStep, h0, h1, h2]

/-- C9: path-traversal safety of `delete_recording`.  Whenever the
recordings directory and the working directory are directories (so that
`os.remove` raises, harmlessly, on them), any removal that does happen
targets exactly `cwd/RECORDINGS_DIR/<basename filename>`, where the
basename contains no path separator and is none of `""`, `"."`, `".."`:
the removed file always lies directly inside the recordings directory,
whatever traversal components the submitted filename contained. -/
theorem C9_delete_confined (fs : List String → Option FsEntry)
    (cwd : List String) (filename : String)
    (hdir : fs (cwd ++ [RECORDINGS_DIR]) = some FsEntry.dir)
    (hcwd : fs cwd = some FsEntry.dir) :
    ∀ t, delete_recording fs cwd filename = some t →
      t = cwd ++ [RECORDINGS_DIR, basename filename] ∧
      '/' ∉ (basename filename).toList ∧
      basename filename ≠ "" ∧ basename filename ≠ "." ∧
      basename filename ≠ ".." := by
  intro t ht
  have hstep1 : resolveStep cwd RECORDINGS_DIR = cwd ++ [RECORDINGS_DIR] :=
    resolveStep_normal cwd RECORDINGS_DIR (by decide) (by decide) (by decide)
  have hres0 : resolveFrom cwd [RECORDINGS_DIR, basename filename] =
      resolveStep (cwd ++ [RECORDINGS_DIR]) (basename filename) := by
    simp [resolveFrom, hstep1]
  by_cases h0 : basename filename = ""
  · rw [delete_recording, hres0, h0] at ht
    simp [resolveStep, hdir] at ht
  · by_cases h1 : basename filename = "."
    · rw [delete_recording, hres0, h1] at ht
      simp [resolveStep, hdir] at ht
    · by_cases h2 : basename filename = ".."
      · rw [delete_recording, hres0, h2] at ht
        have hdrop : (cwd ++ [RECORDINGS_DIR]).dropLast = cwd := by simp
        simp [resolveStep, hdrop, hcwd] at ht
      · have hres : resolveFrom cwd [RECORDINGS_DIR, basename filename] =
            cwd ++ [RECORDINGS_DIR, basename filename] := by
          rw [hres0, resolveStep_normal _ _ h0 h1 h2, List.append_assoc]
          rfl
        rw [delete_recording, hres] at ht
        rcases hf : fs (cwd ++ [RECORDINGS_DIR, basename filename]) with _ | entry
        · simp [hf] at ht
        · cases entry
          · simp [hf] at ht
            exact ⟨ht.symm, basename_no_slash filename, h0, h1, h2⟩
          · simp [hf] at ht

/-- C9 witness: submitting `"../../secret/a.ts"` removes (at most) the
file `a.ts` directly inside the recordings directory. -/
theorem C9_witness :
    ["recordings", "a.ts"] = [] ++ [RECORDINGS_DIR, basename "../../secret/a.ts"] ∧
    '/' ∉ (basename "../../secret/a.ts").toList ∧
    basename "../../secret/a.ts" ≠ "" ∧
    basename "../../secret/a.ts" ≠ "." ∧
    basename "../../secret/a.ts" ≠ ".." :=
  C9_delete_confined recordingsFsExample [] "../../secret/a.ts"
    (by decide) (by decide) ["recordings", "a.ts"] (by decide)

/-- C10: when the channels file does not exist, `load_channels` ignores
whatever parsing would have produced (in particular any parse error)
and returns the empty channel list without raising. -/
theorem C10_load_missing (parsed : Except String (List ChannelRec)) :
    load_channels false parsed = Except.ok [] := rfl
